import Mathlib

/-!
Shallow embedding of the TranslateAnyPDF client (`app.py`) and its batch
driver (`batch_translate_test.py`).

The client is pure orchestration over HTTP, so the network is modelled as
an oracle `net : Nat → NetEvent` giving the outcome of the k-th HTTP
request issued through `make_api_request`, and a separate oracle
`dl : String → DlEvent` for the direct `requests.get` of the download URL.
Parsed JSON bodies are modelled as string-to-string maps (`Obj`), which is
what every body read by this client is.  Python truthiness of a dict is
non-emptiness, and of a string field value is non-emptiness of the string;
both are modelled explicitly because the code guards on truthiness, not on
presence.
-/

namespace TranslateAnyPDF

/-- A parsed JSON object body, as the client reads it: a finite map from
string keys to string values (`job_id`, `status`, `download_url`,
`error_message`). -/
structure Obj where
  entries : List (String × String)
deriving DecidableEq, Repr

/-- Models Python `o.get(k)`: the first value bound to `k`, or `None`. -/
def Obj.get (o : Obj) (k : String) : Option String :=
  (o.entries.find? (fun p => p.1 = k)).map (fun p => p.2)

/-- Python truthiness of a dict: non-empty. -/
def Obj.isTruthy (o : Obj) : Bool :=
  !o.entries.isEmpty

/-- Python truthiness of the result of `o.get(k)`: `None` and the empty
string are falsy. -/
def truthyOptStr : Option String → Bool
  | none => false
  | some s => !s.isEmpty

/-- Outcome of one HTTP attempt inside `make_api_request` (`app.py`
lines 34-74): a response with an optionally-parseable JSON body and a
status code, or one of the caught `requests` exceptions. -/
inductive NetEvent where
  | response (json : Option Obj) (code : Nat)
  | timeout
  | connError
  | reqExc
deriving DecidableEq, Repr

/-- What one call of `make_api_request` returns and consumes:
the `(response_json, status_code)` pair, the index of the next unconsumed
network event, and the total seconds slept in timeout backoff. -/
structure ReqResult where
  body : Option Obj
  code : Option Nat
  next : Nat
  sleep : Nat
deriving DecidableEq, Repr

/-- Status-code classification of a received response, `app.py` lines
47-61: 401 drops the body; 403, 429 and other 4xx return the parsed body
with the code; 5xx hits `raise_for_status`, whose `HTTPError` is caught
and turned into `(None, None)`; anything else (2xx/3xx) is returned
as-is. -/
def classifyResponse (json : Option Obj) (code : Nat) (k : Nat) : ReqResult :=
  if code = 401 then ⟨none, some 401, k + 1, 0⟩
  else if code = 403 then ⟨json, some 403, k + 1, 0⟩
  else if code = 429 then ⟨json, some 429, k + 1, 0⟩
  else if 400 ≤ code ∧ code < 500 then ⟨json, some code, k + 1, 0⟩
  else if 500 ≤ code ∧ code < 600 then ⟨none, none, k + 1, 0⟩
  else ⟨json, some code, k + 1, 0⟩

/-- Recursion core of `make_api_request`, structurally recursive on the
remaining retry budget `left = max_attempts - attempt`.  A timeout with
budget left sleeps `5 * attempt` seconds and retries with the attempt
counter incremented (`app.py` lines 63-68); a timeout with no budget, a
connection error, or any other request exception returns `(None, None)`
(`app.py` lines 69-75). -/
def apiRequestGo (net : Nat → NetEvent) (k attempt : Nat) : Nat → ReqResult
  | 0 =>
    match net k with
    | .response json code => classifyResponse json code k
    | .timeout => ⟨none, none, k + 1, 0⟩
    | .connError => ⟨none, none, k + 1, 0⟩
    | .reqExc => ⟨none, none, k + 1, 0⟩
  | left + 1 =>
    match net k with
    | .response json code => classifyResponse json code k
    | .timeout =>
      let r := apiRequestGo net (k + 1) (attempt + 1) left
      ⟨r.body, r.code, r.next, 5 * attempt + r.sleep⟩
    | .connError => ⟨none, none, k + 1, 0⟩
    | .reqExc => ⟨none, none, k + 1, 0⟩

/-- Embeds `make_api_request(api_key, method, endpoint, ..., attempt,
max_attempts)` (`app.py` lines 20-75).  The endpoint, method and payloads are abstracted
into the oracle `net`; `k` is the index of the next network event.
The retry guard `attempt < max_attempts` is the remaining budget
`maxAttempts - attempt` being non-zero. -/
def make_api_request (net : Nat → NetEvent) (k attempt maxAttempts : Nat) : ReqResult :=
  apiRequestGo net k attempt (maxAttempts - attempt)

/-- The fixed terminal-failure status vocabulary, `app.py` lines 128-129. -/
def terminalFailureStatuses : List String :=
  ["error_tier_limit_exceeded", "error_job_not_found",
   "error_missing_estimation_data", "failed", "enqueue_failed"]

/-- Models `current_api_status in [...]` on an `Option String`: it matches
only a present value equal to one of the five strings. -/
def isTerminalStatus : Option String → Bool
  | some s => terminalFailureStatuses.contains s
  | none => false

/-- Default error message used when a terminal poll response carries no
`error_message` field (`app.py` line 130). -/
def noErrMsg : String := "No specific error message provided by API."

/-- Outcome of the polling loop (`app.py` lines 110-139), distinguished
exactly as the code's distinct log-and-return branches are:
`done` = break with a captured URL; `noBody` = falsy status response;
`noUrl` = completed without a truthy download URL; `terminal` = one of
the five terminal-failure statuses, with the surfaced error message;
`exhausted` = the for-else branch after the budget ran out, with the last
observed status.  Each carries the next network index and the number of
poll requests issued. -/
inductive PollResult where
  | done (url : String) (next polls : Nat)
  | noBody (next polls : Nat)
  | noUrl (next polls : Nat)
  | terminal (status errMsg : String) (next polls : Nat)
  | exhausted (lastStatus : Option String) (polls : Nat)
deriving DecidableEq, Repr

/-- Add one issued poll request to a poll outcome. -/
def PollResult.bump : PollResult → PollResult
  | .done u n p => .done u n (p + 1)
  | .noBody n p => .noBody n (p + 1)
  | .noUrl n p => .noUrl n (p + 1)
  | .terminal s e n p => .terminal s e n (p + 1)
  | .exhausted l p => .exhausted l (p + 1)

/-- The polling loop `for i in range(max_polls)` of `translate_pdf`
(`app.py` lines 110-139), with `fuel` the remaining iterations (the loop
is entered with `fuel = 60`).  Each iteration calls `make_api_request`
with default attempt arguments; `if not status_response` catches both a
`None` body and an empty dict; `completed` requires a truthy
`download_url`; the five terminal statuses return immediately; any other
status continues; running out of fuel is the for-else branch carrying the
last observed status. -/
def pollLoop (net : Nat → NetEvent) (k : Nat) : Nat → Option String → PollResult
  | 0, lastStatus => .exhausted lastStatus 0
  | fuel + 1, _ =>
    let r := make_api_request net k 1 3
    match r.body with
    | none => .noBody r.next 1
    | some o =>
      if o.isTruthy = false then .noBody r.next 1
      else
        let st := o.get "status"
        if st = some "completed" then
          match o.get "download_url" with
          | none => .noUrl r.next 1
          | some u => if u.isEmpty then .noUrl r.next 1 else .done u r.next 1
        else if isTerminalStatus st then
          .terminal (st.getD "") ((o.get "error_message").getD noErrMsg) r.next 1
        else
          (pollLoop net r.next fuel st).bump

/-- Outcome of the direct `requests.get(download_url)` in step 3
(`app.py` lines 144-157): a response with status code and body bytes, a
timeout, or any other `requests` exception. -/
inductive DlEvent where
  | response (code : Nat) (content : List Nat)
  | timeout
  | reqExc
deriving DecidableEq, Repr

/-- Observable outcome of `translate_pdf`: the returned boolean, the
bytes written to `output_path` (if any), the number of poll requests
issued, and whether the download fetch was attempted at all. -/
structure TransResult where
  success : Bool
  output : Option (List Nat)
  polls : Nat
  dlAttempted : Bool
deriving DecidableEq, Repr

/-- The submission guard of `translate_pdf`, `app.py` line 97:
`(status_code == 202 or status_code == 200) and init_response and
init_response.get("job_id") and init_response.get("status")`, with
Python truthiness on the body and on both field values. -/
def submissionAccepted (body : Option Obj) (code : Option Nat) : Bool :=
  (code == some 202 || code == some 200) &&
  (match body with
   | none => false
   | some o => o.isTruthy && truthyOptStr (o.get "job_id") && truthyOptStr (o.get "status"))

/-- Embeds `translate_pdf(api_key, pdf_path, target_lang, tier,
output_path)` (`app.py` lines 79-161).  `pdfExists` is `pdf_path.exists()`; the
submission is network event 0 onward; the poll loop follows from the next
unconsumed index with a budget of 60; on `done url`, step 3 fetches
`dl url`, where `raise_for_status` fails the run for any 4xx/5xx status
and any timeout or other request exception also fails it; otherwise the
response body is written verbatim to `output_path`. -/
def translate_pdf (pdfExists : Bool) (net : Nat → NetEvent) (dl : String → DlEvent) : TransResult :=
  if pdfExists = false then ⟨false, none, 0, false⟩
  else
    let r := make_api_request net 0 1 3
    if submissionAccepted r.body r.code then
      match pollLoop net r.next 60 none with
      | .done url _ polls =>
        (match dl url with
         | .response code content =>
           if 400 ≤ code ∧ code < 600 then ⟨false, none, polls, true⟩
           else ⟨true, some content, polls, true⟩
         | .timeout => ⟨false, none, polls, true⟩
         | .reqExc => ⟨false, none, polls, true⟩)
      | .noBody _ polls => ⟨false, none, polls, false⟩
      | .noUrl _ polls => ⟨false, none, polls, false⟩
      | .terminal _ _ _ polls => ⟨false, none, polls, false⟩
      | .exhausted _ polls => ⟨false, none, polls, false⟩
    else ⟨false, none, 0, false⟩

/-! ## The batch driver (`batch_translate_test.py`) -/

/-- The names bound at module level by `app.py`: its imports (lines 2-7),
the logger (line 11), the two configuration constants (lines 16-17), and
its four functions.  `SUPPORTED_TARGET_LANGUAGES` is not among them. -/
def appModuleNames : List String :=
  ["os", "time", "requests", "argparse", "logging", "Path", "log",
   "RAPIDAPI_HOST", "BASE_URL", "make_api_request", "translate_pdf",
   "analyze_pdf_main", "main_cli"]

/-- The names `batch_translate_test.py` line 7 imports from module
`app`. -/
def batchImportsFromApp : List String :=
  ["translate_pdf", "SUPPORTED_TARGET_LANGUAGES"]

/-- Loading `batch_translate_test.py`: the `from app import ...` at
line 7 runs before anything else in the module and raises `ImportError`
naming the first requested name that `app` does not bind. -/
def loadBatchModule : Except String Unit :=
  match batchImportsFromApp.find? (fun n => !(appModuleNames.contains n)) with
  | some n => .error n
  | none => .ok ()

/-- The inputs `run_batch_translation_test` inspects: the API key
(`""` models a missing/`None` key, matching `if not api_key`), whether
the input PDF and the languages CSV exist, the CSV header row, and the
`language_code` column values in order. -/
structure BatchEnv where
  apiKey : String
  inputPdfExists : Bool
  csvExists : Bool
  csvFieldnames : List String
  csvLanguageCodes : List String
deriving DecidableEq, Repr

/-- Result of one `run_batch_translation_test` call: an early abort, or
completion with the ordered list of attempted languages, each paired with
its `translate_pdf` outcome (`none` models an exception caught by the
per-language handler). -/
inductive BatchOutcome where
  | aborted (reason : String)
  | completed (attempts : List (String × Option Bool))
deriving DecidableEq, Repr

/-- Embeds `run_batch_translation_test` (`batch_translate_test.py` lines
18-84).  `supported` is the module-level global
`SUPPORTED_TARGET_LANGUAGES` the loop body reads at line 60 — a name
`app.py` never defines, so it is passed here as the environment the
function's code assumes; its only use is a log warning, which does not
affect control flow.  `tp lang` is the outcome of the
`translate_pdf` call for `lang` (`none` = it raised; the `except` at
line 79 catches and logs, and the loop continues). -/
def run_batch_translation_test (supported : List String) (tp : String → Option Bool)
    (env : BatchEnv) : BatchOutcome :=
  if env.apiKey.isEmpty then .aborted "missing_api_key"
  else if env.inputPdfExists = false then .aborted "input_pdf_not_found"
  else if env.csvExists = false then .aborted "languages_csv_not_found"
  else if (env.csvFieldnames.contains "language_code") = false then
    .aborted "missing_language_code_header"
  else if env.csvLanguageCodes.isEmpty then .completed []
  else
    let _ := supported
    .completed (env.csvLanguageCodes.map (fun l => (l, tp l)))

/-- Running `batch_translate_test.py` as a script: the import at line 7
resolves first; only if it succeeds does argument parsing and
`run_batch_translation_test` run. -/
def runBatchScript (supported : List String) (tp : String → Option Bool)
    (env : BatchEnv) : Except String BatchOutcome :=
  match loadBatchModule with
  | .error n => .error n
  | .ok () => .ok (run_batch_translation_test supported tp env)

/-! ## Concrete scenarios used by the theorems -/

/-- Submission body `{job_id: "abc", status: "queued"}`. -/
def subBodyAbc : Obj := ⟨[("job_id", "abc"), ("status", "queued")]⟩

/-- First poll body `{status: "processing"}`. -/
def pollProcessing : Obj := ⟨[("status", "processing")]⟩

/-- Second poll body `{status: "completed", download_url: "https://cdn/x.pdf"}`. -/
def pollCompleted : Obj := ⟨[("status", "completed"), ("download_url", "https://cdn/x.pdf")]⟩

/-- The downloaded bytes `B` of the end-to-end scenario. -/
def bytesB : List Nat := [37, 80, 68, 70, 45, 49, 46, 52]

/-- Network oracle of the end-to-end scenario: submission accepted at
202, poll 1 still processing, poll 2 completed with the CDN URL. -/
def scenarioNet : Nat → NetEvent := fun k =>
  if k = 0 then .response (some subBodyAbc) 202
  else if k = 1 then .response (some pollProcessing) 200
  else .response (some pollCompleted) 200

/-- Download oracle of the end-to-end scenario: the CDN URL serves
`bytesB` at 200. -/
def scenarioDl : String → DlEvent := fun u =>
  if u = "https://cdn/x.pdf" then .response 200 bytesB else .reqExc

/-- Download oracle answering 300 (a non-2xx status that
`raise_for_status` does not raise on and `requests` does not follow as a
redirect) with body `bytesB`. -/
def dl300 : String → DlEvent := fun _ => .response 300 bytesB

/-- Download oracle answering 404. -/
def dl404 : String → DlEvent := fun _ => .response 404 []

/-- Download oracle that times out. -/
def dlTimeout : String → DlEvent := fun _ => .timeout

/-- A network where every request times out. -/
def allTimeoutNet : Nat → NetEvent := fun _ => .timeout

/-- A network answering 404 with a message body on every request. -/
def net404 : Nat → NetEvent := fun _ =>
  .response (some ⟨[("message", "not found")]⟩) 404

/-- A network whose submission succeeds and whose every poll answers a
non-terminal status. -/
def foreverProcessingNet : Nat → NetEvent := fun k =>
  if k = 0 then .response (some subBodyAbc) 202
  else .response (some pollProcessing) 200

/-- A network whose submission succeeds and whose first poll returns an
empty JSON object at 200. -/
def emptyPollNet : Nat → NetEvent := fun k =>
  if k = 0 then .response (some subBodyAbc) 202
  else .response (some ⟨[]⟩) 200

/-- Like `emptyPollNet` but the first poll body is not JSON at all
(`response.json()` parse failure, body `None`). -/
def nonePollNet : Nat → NetEvent := fun k =>
  if k = 0 then .response (some subBodyAbc) 202
  else .response none 200

/-- Batch environment of the two-language scenario: valid key, PDF and
CSV present, header correct, languages `[es, fr]`. -/
def batchEnvEsFr : BatchEnv :=
  ⟨"k", true, true, ["language_code"], ["es", "fr"]⟩

/-- Per-language outcomes of the batch scenario: `es` succeeds, `fr`
fails (its submission is rejected with 403, so `translate_pdf` returns
`False` — no exception). -/
def batchTpEsFr : String → Option Bool := fun l =>
  if l = "es" then some true else some false

/-- Number of poll requests a poll outcome reports. -/
def PollResult.polls : PollResult → Nat
  | .done _ _ p => p
  | .noBody _ p => p
  | .noUrl _ p => p
  | .terminal _ _ _ p => p
  | .exhausted _ p => p

/-! ## Helper lemmas -/

theorem PollResult.polls_bump (r : PollResult) : r.bump.polls = r.polls + 1 := by
  cases r <;> rfl

theorem make_api_request_response (net : Nat → NetEvent) (k attempt maxAttempts : Nat)
    (json : Option Obj) (code : Nat) (h : net k = NetEvent.response json code) :
    make_api_request net k attempt maxAttempts = classifyResponse json code k := by
  unfold make_api_request
  cases maxAttempts - attempt <;> simp [apiRequestGo, h]

theorem make_api_request_2xx (net : Nat → NetEvent) (k attempt maxAttempts : Nat)
    (json : Option Obj) (code : Nat) (h : net k = NetEvent.response json code)
    (h1 : 200 ≤ code) (h2 : code < 300) :
    make_api_request net k attempt maxAttempts = ⟨json, some code, k + 1, 0⟩ := by
  rw [make_api_request_response net k attempt maxAttempts json code h]
  unfold classifyResponse
  split_ifs <;> first | rfl | omega

theorem Obj.isTruthy_of_get {o : Obj} {k v : String} (h : o.get k = some v) :
    o.isTruthy = true := by
  rcases o with ⟨es⟩
  cases es with
  | nil => simp [Obj.get] at h
  | cons a l => simp [Obj.isTruthy]

theorem Obj.isTruthy_of_truthy_get {o : Obj} {k : String}
    (h : truthyOptStr (o.get k) = true) : o.isTruthy = true := by
  cases hg : o.get k with
  | none => rw [hg] at h; simp [truthyOptStr] at h
  | some v => exact Obj.isTruthy_of_get hg

theorem PollResult.one_le_polls_bump (r : PollResult) : 1 ≤ r.bump.polls := by
  cases r <;> simp [PollResult.bump, PollResult.polls]

theorem pollLoop_one_le_polls (net : Nat → NetEvent) (k fuel : Nat) (last : Option String) :
    1 ≤ (pollLoop net k (fuel + 1) last).polls := by
  simp only [pollLoop]
  repeat' split
  all_goals first
    | exact PollResult.one_le_polls_bump _
    | simp [PollResult.polls]

theorem pollLoop_one_le_polls_of_ne (net : Nat → NetEvent) (k fuel : Nat)
    (last : Option String) (hf : fuel ≠ 0) : 1 ≤ (pollLoop net k fuel last).polls := by
  obtain ⟨f, rfl⟩ := Nat.exists_eq_succ_of_ne_zero hf
  exact pollLoop_one_le_polls net k f last

theorem submissionAccepted_iff (body : Option Obj) (code : Option Nat) :
    submissionAccepted body code = true ↔
      (code = some 200 ∨ code = some 202) ∧
      ∃ o, body = some o ∧ truthyOptStr (o.get "job_id") = true ∧
        truthyOptStr (o.get "status") = true := by
  unfold submissionAccepted
  cases body with
  | none => simp
  | some o =>
    simp only [Bool.and_eq_true, Bool.or_eq_true, beq_iff_eq, Option.some.injEq]
    constructor
    · rintro ⟨hc, ⟨_, hj⟩, hs⟩
      exact ⟨hc.symm, o, rfl, hj, hs⟩
    · rintro ⟨hc, o2, ho2, hj, hs⟩
      cases ho2
      exact ⟨hc.symm, ⟨Obj.isTruthy_of_truthy_get hj, hj⟩, hs⟩

theorem translate_pdf_polls_of_accepted (net : Nat → NetEvent) (dl : String → DlEvent)
    (hacc : submissionAccepted (make_api_request net 0 1 3).body
      (make_api_request net 0 1 3).code = true) :
    (translate_pdf true net dl).polls =
      (pollLoop net (make_api_request net 0 1 3).next 60 none).polls := by
  simp only [translate_pdf]
  rw [if_neg (by simp : ¬(true = false)), if_pos hacc]
  rcases pollLoop net (make_api_request net 0 1 3).next 60 none with
    ⟨u, n, p⟩ | ⟨n, p⟩ | ⟨n, p⟩ | ⟨s, e, n, p⟩ | ⟨l, p⟩
  · rcases hdl : dl u with ⟨c, b⟩ | _ | _ <;> simp only [hdl] <;> try rfl
    split <;> rfl
  all_goals simp [PollResult.polls]

/-! ## Claim theorems -/

/-- C2: every invocation of the batch driver fails before performing any
validation or network call: `batch_translate_test.py` imports
`SUPPORTED_TARGET_LANGUAGES` from module `app`, which binds no such name,
so loading the script raises an import error for that name before
`run_batch_translation_test` can check the API key, input PDF, or CSV —
whatever the arguments are. -/
theorem batch_script_always_fails_at_import (supported : List String)
    (tp : String → Option Bool) (env : BatchEnv) :
    runBatchScript supported tp env = Except.error "SUPPORTED_TARGET_LANGUAGES" := rfl

/-- C3: the batch loop itself, as written at lines 55-84, attempts every
language in order and a per-language failure does not stop it — on CSV
`[es, fr]` with `es` succeeding and `fr` failing (submission rejected
with 403, so `translate_pdf` returns `False`), it completes with both
languages attempted.  But running the script never reaches that loop:
line 7 raises when resolving names, because `app.py` does not define
`SUPPORTED_TARGET_LANGUAGES`, so the run terminates with an import error
instead of completing. -/
theorem batch_loop_intent_vs_import_failure :
    run_batch_translation_test ["es", "fr"] batchTpEsFr batchEnvEsFr =
      BatchOutcome.completed [("es", some true), ("fr", some false)] ∧
    runBatchScript ["es", "fr"] batchTpEsFr batchEnvEsFr =
      Except.error "SUPPORTED_TARGET_LANGUAGES" := by
  constructor <;> rfl

/-- C4: on a timeout, if the current attempt number is below the maximum
of 3, `make_api_request` sleeps `5 × attempt` seconds and retries the
same call with the attempt counter incremented (so its result is the
retry's result with the backoff added to the slept time); a timeout on
attempt 3 gives up and returns `(None, None)`. -/
theorem timeout_retry_policy (net : Nat → NetEvent) (k attempt : Nat)
    (h : net k = NetEvent.timeout) :
    (attempt < 3 →
      make_api_request net k attempt 3 =
        ⟨(make_api_request net (k + 1) (attempt + 1) 3).body,
         (make_api_request net (k + 1) (attempt + 1) 3).code,
         (make_api_request net (k + 1) (attempt + 1) 3).next,
         5 * attempt + (make_api_request net (k + 1) (attempt + 1) 3).sleep⟩) ∧
    make_api_request net k 3 3 = ⟨none, none, k + 1, 0⟩ := by
  constructor
  · intro hlt
    have h3 : 3 - attempt = (3 - (attempt + 1)) + 1 := by omega
    simp only [make_api_request, h3, apiRequestGo, h]
  · simp only [make_api_request, Nat.sub_self, apiRequestGo, h]

/-- C4 witness: with every request timing out, the call at attempt 1
equals the retry at attempt 2 with 5 more seconds slept. -/
theorem timeout_retry_policy_witness :
    make_api_request allTimeoutNet 0 1 3 =
      ⟨(make_api_request allTimeoutNet 1 2 3).body,
       (make_api_request allTimeoutNet 1 2 3).code,
       (make_api_request allTimeoutNet 1 2 3).next,
       5 * 1 + (make_api_request allTimeoutNet 1 2 3).sleep⟩ :=
  (timeout_retry_policy allTimeoutNet 0 1 rfl).1 (by decide)

/-- C9: per-response classification of `make_api_request`: 401 returns a
null body with status 401 regardless of what the server sent; 403 and
429 return the parsed body with their status; every other 4xx returns
the parsed body with that status; and none of these retries — exactly
one network event is consumed and no backoff sleep happens. -/
theorem client_error_classification (net : Nat → NetEvent) (k attempt maxAttempts : Nat)
    (json : Option Obj) (code : Nat) (h : net k = NetEvent.response json code) :
    (code = 401 → make_api_request net k attempt maxAttempts = ⟨none, some 401, k + 1, 0⟩) ∧
    (code = 403 → make_api_request net k attempt maxAttempts = ⟨json, some 403, k + 1, 0⟩) ∧
    (code = 429 → make_api_request net k attempt maxAttempts = ⟨json, some 429, k + 1, 0⟩) ∧
    (400 ≤ code → code < 500 → code ≠ 401 → code ≠ 403 → code ≠ 429 →
      make_api_request net k attempt maxAttempts = ⟨json, some code, k + 1, 0⟩) := by
  rw [make_api_request_response net k attempt maxAttempts json code h]
  refine ⟨?_, ?_, ?_, ?_⟩
  · intro h401; subst h401; rfl
  · intro h403; subst h403; rfl
  · intro h429; subst h429; rfl
  · intro hge hlt h1 h2 h3
    unfold classifyResponse
    split_ifs <;> first | rfl | omega

/-- C9 witness: a 404 with a message body is returned as-is after one
network event, with no sleep. -/
theorem client_error_classification_witness :
    make_api_request net404 0 1 3 =
      ⟨some ⟨[("message", "not found")]⟩, some 404, 1, 0⟩ :=
  (client_error_classification net404 0 1 3 (some ⟨[("message", "not found")]⟩) 404 rfl).2.2.2
    (by decide) (by decide) (by decide) (by decide) (by decide)

/-- C5: `translate_pdf` treats the submission as accepted if and only if
the returned status code is 200 or 202 and the parsed body carries both a
(truthy) job id and a (truthy) status value; if accepted it proceeds to
polling (at least one poll request is issued); for any other combination
it returns false immediately with no poll request, no written output and
no download attempt. -/
theorem submission_gate (net : Nat → NetEvent) (dl : String → DlEvent) :
    (submissionAccepted (make_api_request net 0 1 3).body
        (make_api_request net 0 1 3).code = true ↔
      ((make_api_request net 0 1 3).code = some 200 ∨
        (make_api_request net 0 1 3).code = some 202) ∧
      ∃ o, (make_api_request net 0 1 3).body = some o ∧
        truthyOptStr (o.get "job_id") = true ∧ truthyOptStr (o.get "status") = true) ∧
    (submissionAccepted (make_api_request net 0 1 3).body
        (make_api_request net 0 1 3).code = true →
      1 ≤ (translate_pdf true net dl).polls) ∧
    (submissionAccepted (make_api_request net 0 1 3).body
        (make_api_request net 0 1 3).code = false →
      translate_pdf true net dl = ⟨false, none, 0, false⟩) := by
  refine ⟨submissionAccepted_iff _ _, ?_, ?_⟩
  · intro hacc
    rw [translate_pdf_polls_of_accepted net dl hacc]
    exact pollLoop_one_le_polls_of_ne _ _ 60 none (by decide)
  · intro haccf
    simp only [translate_pdf]
    rw [if_neg (by simp : ¬(true = false)), if_neg (by simp [haccf])]

/-- C5 witness: the end-to-end scenario's accepted submission leads to at
least one poll request. -/
theorem submission_gate_witness : 1 ≤ (translate_pdf true scenarioNet scenarioDl).polls :=
  (submission_gate scenarioNet scenarioDl).2.1 (by decide)

/-- C10: a poll response whose parsed body is an empty JSON object is
treated exactly like a response with no body at all: even at status 200,
polling fails on that attempt and `translate_pdf` returns false
immediately — one poll request, no output, no download.  The guard tests
the body's falsiness, not whether it is null. -/
theorem empty_poll_body_is_failure (net net2 : Nat → NetEvent) (dl : String → DlEvent)
    (h0 : net 0 = NetEvent.response (some subBodyAbc) 202)
    (h1 : net 1 = NetEvent.response (some ⟨[]⟩) 200)
    (g0 : net2 0 = NetEvent.response (some subBodyAbc) 202)
    (g1 : net2 1 = NetEvent.response none 200) :
    translate_pdf true net dl = ⟨false, none, 1, false⟩ ∧
    translate_pdf true net2 dl = ⟨false, none, 1, false⟩ := by
  have hacc : submissionAccepted (some subBodyAbc) (some 202) = true := by decide
  constructor
  · have hA := make_api_request_2xx net 0 1 3 (some subBodyAbc) 202 h0 (by omega) (by omega)
    have hB := make_api_request_2xx net 1 1 3 (some ⟨[]⟩) 200 h1 (by omega) (by omega)
    have hP : pollLoop net 1 60 none = PollResult.noBody 2 1 := by
      show pollLoop net 1 (59 + 1) none = _
      simp [pollLoop, hB, Obj.isTruthy]
    simp [translate_pdf, hA, hacc, hP]
  · have hA := make_api_request_2xx net2 0 1 3 (some subBodyAbc) 202 g0 (by omega) (by omega)
    have hB := make_api_request_2xx net2 1 1 3 none 200 g1 (by omega) (by omega)
    have hP : pollLoop net2 1 60 none = PollResult.noBody 2 1 := by
      show pollLoop net2 1 (59 + 1) none = _
      simp [pollLoop, hB]
    simp [translate_pdf, hA, hacc, hP]

/-- C10 witness: the two concrete networks — first poll body `{}` and
first poll body unparseable — both fail after exactly one poll. -/
theorem empty_poll_body_is_failure_witness :
    translate_pdf true emptyPollNet scenarioDl = ⟨false, none, 1, false⟩ ∧
    translate_pdf true nonePollNet scenarioDl = ⟨false, none, 1, false⟩ :=
  empty_poll_body_is_failure emptyPollNet nonePollNet scenarioDl rfl rfl rfl rfl

/-- C6: per-poll-response behavior.  A response whose status is
`completed` with a non-empty `download_url` makes the loop exit
successfully with that URL captured after this one poll; `completed`
without a truthy download URL fails the poll immediately; any of the five
terminal-failure statuses fails the poll immediately, surfacing the
accompanying `error_message` (or the default text); and `translate_pdf`
attempts the download only when the loop exited with a captured URL — so
in the failure cases the download is never attempted. -/
theorem poll_response_dispatch :
    (∀ (net : Nat → NetEvent) (k fuel : Nat) (last : Option String) (o : Obj) (u : String),
      net k = NetEvent.response (some o) 200 → o.get "status" = some "completed" →
      o.get "download_url" = some u → u ≠ "" →
      pollLoop net k (fuel + 1) last = PollResult.done u (k + 1) 1) ∧
    (∀ (net : Nat → NetEvent) (k fuel : Nat) (last : Option String) (o : Obj),
      net k = NetEvent.response (some o) 200 → o.get "status" = some "completed" →
      truthyOptStr (o.get "download_url") = false →
      pollLoop net k (fuel + 1) last = PollResult.noUrl (k + 1) 1) ∧
    (∀ (net : Nat → NetEvent) (k fuel : Nat) (last : Option String) (o : Obj) (s : String),
      net k = NetEvent.response (some o) 200 → o.get "status" = some s →
      s ∈ terminalFailureStatuses →
      pollLoop net k (fuel + 1) last =
        PollResult.terminal s ((o.get "error_message").getD noErrMsg) (k + 1) 1) ∧
    (∀ (pdfExists : Bool) (net : Nat → NetEvent) (dl : String → DlEvent),
      (translate_pdf pdfExists net dl).dlAttempted = true →
      ∃ u n p, pollLoop net (make_api_request net 0 1 3).next 60 none =
        PollResult.done u n p) := by
  refine ⟨?_, ?_, ?_, ?_⟩
  · intro net k fuel last o u h hst hurl hne
    have hB := make_api_request_2xx net k 1 3 (some o) 200 h (by omega) (by omega)
    have ht : o.isTruthy = true := Obj.isTruthy_of_get hst
    have hie : u.isEmpty = false := by
      rcases hu : u.isEmpty with _ | _
      · rfl
      · exact absurd ((String.isEmpty_iff u).mp hu) hne
    simp [pollLoop, hB, ht, hst, hurl, hie]
  · intro net k fuel last o h hst hurl
    have hB := make_api_request_2xx net k 1 3 (some o) 200 h (by omega) (by omega)
    have ht : o.isTruthy = true := Obj.isTruthy_of_get hst
    cases hu : o.get "download_url" with
    | none => simp [pollLoop, hB, ht, hst, hu]
    | some v =>
      rw [hu] at hurl
      have hv : v.isEmpty = true := by
        simpa [truthyOptStr] using hurl
      simp [pollLoop, hB, ht, hst, hu, hv]
  · intro net k fuel last o s h hst hmem
    have hB := make_api_request_2xx net k 1 3 (some o) 200 h (by omega) (by omega)
    have ht : o.isTruthy = true := Obj.isTruthy_of_get hst
    simp only [terminalFailureStatuses, List.mem_cons, List.not_mem_nil, or_false] at hmem
    rcases hmem with rfl | rfl | rfl | rfl | rfl <;>
      simp [pollLoop, hB, ht, hst, isTerminalStatus, terminalFailureStatuses]
  · intro pdfExists net dl h
    simp only [translate_pdf] at h
    by_cases hpdf : pdfExists = false
    · rw [if_pos hpdf] at h
      simp at h
    rw [if_neg hpdf] at h
    by_cases hacc : submissionAccepted (make_api_request net 0 1 3).body
        (make_api_request net 0 1 3).code = true
    case neg => rw [if_neg hacc] at h; simp at h
    rw [if_pos hacc] at h
    rcases hpl : pollLoop net (make_api_request net 0 1 3).next 60 none with
      ⟨u, n, p⟩ | ⟨n, p⟩ | ⟨n, p⟩ | ⟨s, e, n, p⟩ | ⟨l, p⟩ <;> rw [hpl] at h
    · exact ⟨u, n, p, rfl⟩
    all_goals simp at h

/-- C6 witness: in the end-to-end scenario, the poll response at network
index 2 is `completed` with the CDN URL, and one poll at that index exits
the loop with the URL captured. -/
theorem poll_response_dispatch_witness :
    pollLoop scenarioNet 2 1 none = PollResult.done "https://cdn/x.pdf" 3 1 :=
  poll_response_dispatch.1 scenarioNet 2 0 none pollCompleted "https://cdn/x.pdf"
    rfl (by decide) (by decide) (by decide)

theorem pollLoop_all_nonterminal (net : Nat → NetEvent) (bodies : Nat → Obj) (lo : Nat)
    (hnet : ∀ j, lo ≤ j → net j = NetEvent.response (some (bodies j)) 200)
    (hbody : ∀ j, lo ≤ j → (bodies j).isTruthy = true ∧
      (bodies j).get "status" ≠ some "completed" ∧
      isTerminalStatus ((bodies j).get "status") = false) :
    ∀ (fuel k : Nat), lo ≤ k → ∀ last,
      pollLoop net k fuel last =
        PollResult.exhausted
          (if fuel = 0 then last else (bodies (k + fuel - 1)).get "status") fuel := by
  intro fuel
  induction fuel with
  | zero => intro k hk last; simp [pollLoop]
  | succ f ih =>
    intro k hk last
    have hB := make_api_request_2xx net k 1 3 (some (bodies k)) 200 (hnet k hk)
      (by omega) (by omega)
    obtain ⟨ht, hnc, hnt⟩ := hbody k hk
    have hrec := ih (k + 1) (by omega) ((bodies k).get "status")
    simp only [pollLoop, hB, ht, hnc, hnt]
    rw [hrec]
    simp only [PollResult.bump]
    have hXY : (if f = 0 then (bodies k).get "status"
        else (bodies (k + 1 + f - 1)).get "status") =
        (bodies (k + (f + 1) - 1)).get "status" := by
      by_cases hf : f = 0
      · subst hf; simp
      · rw [if_neg hf]
        have harith : k + 1 + f - 1 = k + (f + 1) - 1 := by omega
        rw [harith]
    rw [hXY]
    simp

/-- C7: with an accepted submission, if every poll response carries a
truthy body whose status is neither `completed` nor one of the five
terminal-failure strings, `translate_pdf` issues exactly 60 poll
requests — never a 61st — and returns false with nothing written, and
the loop ends in the exhausted state reporting the status observed on
the 60th (last) poll. -/
theorem poll_budget_sixty (net : Nat → NetEvent) (bodies : Nat → Obj) (dl : String → DlEvent)
    (b0 : Obj) (h0 : net 0 = NetEvent.response (some b0) 202)
    (hj : truthyOptStr (b0.get "job_id") = true)
    (hs : truthyOptStr (b0.get "status") = true)
    (hnet : ∀ j, 1 ≤ j → net j = NetEvent.response (some (bodies j)) 200)
    (hbody : ∀ j, 1 ≤ j → (bodies j).isTruthy = true ∧
      (bodies j).get "status" ≠ some "completed" ∧
      isTerminalStatus ((bodies j).get "status") = false) :
    translate_pdf true net dl = ⟨false, none, 60, false⟩ ∧
    pollLoop net 1 60 none = PollResult.exhausted ((bodies 60).get "status") 60 := by
  have hA := make_api_request_2xx net 0 1 3 (some b0) 202 h0 (by omega) (by omega)
  have hacc : submissionAccepted (some b0) (some 202) = true := by
    rw [submissionAccepted_iff]
    exact ⟨Or.inr rfl, b0, rfl, hj, hs⟩
  have hP : pollLoop net 1 60 none = PollResult.exhausted ((bodies 60).get "status") 60 := by
    have h := pollLoop_all_nonterminal net bodies 1 hnet hbody 60 1 (by omega) none
    simpa using h
  refine ⟨?_, hP⟩
  simp [translate_pdf, hA, hacc, hP]

/-- C7 witness: a network that answers every poll with
`{status: "processing"}` exhausts the budget — `translate_pdf` fails
after exactly 60 polls. -/
theorem poll_budget_sixty_witness :
    translate_pdf true foreverProcessingNet scenarioDl = ⟨false, none, 60, false⟩ :=
  (poll_budget_sixty foreverProcessingNet (fun _ => pollProcessing) scenarioDl subBodyAbc
    rfl (by decide) (by decide)
    (fun j hj => by simp [foreverProcessingNet, show j ≠ 0 by omega])
    (fun _ _ => by
      show pollProcessing.isTruthy = true ∧
        pollProcessing.get "status" ≠ some "completed" ∧
        isTerminalStatus (pollProcessing.get "status") = false
      decide)).1

/-- C1: `translate_pdf` returns a boolean that is true only when all
three steps succeed — the submission is accepted, polling exits with a
captured download URL, and the download fetch returns a response that
`raise_for_status` does not reject — and in that case the response body
is exactly what is written to the output file.  In the concrete
end-to-end scenario (submission `{job_id:"abc", status:"queued"}` at 202,
poll 1 `{status:"processing"}`, poll 2 `{status:"completed",
download_url:"https://cdn/x.pdf"}`, download 200 with bytes `B`), the
output file holds exactly `B`, two polls were issued, and the function
returns true. -/
theorem translate_contract_and_scenario :
    (∀ (pdfExists : Bool) (net : Nat → NetEvent) (dl : String → DlEvent),
      (translate_pdf pdfExists net dl).success = true →
      pdfExists = true ∧
      submissionAccepted (make_api_request net 0 1 3).body
        (make_api_request net 0 1 3).code = true ∧
      ∃ url n p code content,
        pollLoop net (make_api_request net 0 1 3).next 60 none = PollResult.done url n p ∧
        dl url = DlEvent.response code content ∧
        ¬(400 ≤ code ∧ code < 600) ∧
        (translate_pdf pdfExists net dl).output = some content) ∧
    translate_pdf true scenarioNet scenarioDl = ⟨true, some bytesB, 2, true⟩ := by
  constructor
  · intro pdfExists net dl h
    simp only [translate_pdf] at h
    by_cases hpdf : pdfExists = false
    · rw [if_pos hpdf] at h; simp at h
    rw [if_neg hpdf] at h
    have hpdfT : pdfExists = true := by
      cases pdfExists
      · exact absurd rfl hpdf
      · rfl
    by_cases hacc : submissionAccepted (make_api_request net 0 1 3).body
        (make_api_request net 0 1 3).code = true
    case neg => rw [if_neg hacc] at h; simp at h
    rw [if_pos hacc] at h
    refine ⟨hpdfT, hacc, ?_⟩
    simp only [translate_pdf]
    rw [if_neg hpdf, if_pos hacc]
    rcases hpl : pollLoop net (make_api_request net 0 1 3).next 60 none with
      ⟨u, n, p⟩ | ⟨n, p⟩ | ⟨n, p⟩ | ⟨s, e, n, p⟩ | ⟨l, p⟩ <;> simp only [hpl] at h ⊢
    · rcases hdl : dl u with ⟨code, content⟩ | _ | _ <;> simp only [hdl] at h ⊢
      · by_cases hc : 400 ≤ code ∧ code < 600
        · rw [if_pos hc] at h; simp at h
        · rw [if_neg hc] at h
          refine ⟨u, n, p, code, content, rfl, hdl, hc, ?_⟩
          rw [if_neg hc]
      · simp at h
      · simp at h
    all_goals simp at h
  · decide

/-- C1 witness: the general only-if direction applied to the end-to-end
scenario. -/
theorem translate_contract_and_scenario_witness :
    true = true ∧
    submissionAccepted (make_api_request scenarioNet 0 1 3).body
      (make_api_request scenarioNet 0 1 3).code = true ∧
    ∃ url n p code content,
      pollLoop scenarioNet (make_api_request scenarioNet 0 1 3).next 60 none =
        PollResult.done url n p ∧
      scenarioDl url = DlEvent.response code content ∧
      ¬(400 ≤ code ∧ code < 600) ∧
      (translate_pdf true scenarioNet scenarioDl).output = some content :=
  translate_contract_and_scenario.1 true scenarioNet scenarioDl (by decide)

/-- C8 counterexample: a download response with the non-2xx status 300 —
which `requests` does not follow as a redirect and `raise_for_status`
does not raise on — is NOT escalated as an error: the body is written to
the output file and `translate_pdf` returns true.  So "every non-2xx
response from the download URL is escalated as an error" fails on the
code. -/
theorem download_non2xx_counterexample :
    translate_pdf true scenarioNet dl300 = ⟨true, some bytesB, 2, true⟩ ∧
    dl300 "https://cdn/x.pdf" = DlEvent.response 300 bytesB ∧
    ¬(200 ≤ 300 ∧ 300 ≤ 299) :=
  ⟨by decide, rfl, by omega⟩

/-- C8 (amended): in the download step, every timeout or other transport
error causes `translate_pdf` to return false with nothing written, and
every 4xx or 5xx response (status in 400..599, exactly what
`raise_for_status` raises on) is escalated as an error — the download is
treated as failed and no file content is reported as success. -/
theorem download_failure_modes (net : Nat → NetEvent) (dl : String → DlEvent)
    (u : String) (n p : Nat)
    (hacc : submissionAccepted (make_api_request net 0 1 3).body
      (make_api_request net 0 1 3).code = true)
    (hpl : pollLoop net (make_api_request net 0 1 3).next 60 none = PollResult.done u n p) :
    (dl u = DlEvent.timeout → translate_pdf true net dl = ⟨false, none, p, true⟩) ∧
    (dl u = DlEvent.reqExc → translate_pdf true net dl = ⟨false, none, p, true⟩) ∧
    (∀ code content, dl u = DlEvent.response code content → 400 ≤ code → code < 600 →
      translate_pdf true net dl = ⟨false, none, p, true⟩) := by
  refine ⟨?_, ?_, ?_⟩
  · intro hdl
    simp only [translate_pdf]
    rw [if_neg (by simp : ¬(true = false)), if_pos hacc]
    simp only [hpl, hdl]
  · intro hdl
    simp only [translate_pdf]
    rw [if_neg (by simp : ¬(true = false)), if_pos hacc]
    simp only [hpl, hdl]
  · intro code content hdl h1 h2
    simp only [translate_pdf]
    rw [if_neg (by simp : ¬(true = false)), if_pos hacc]
    simp only [hpl, hdl]
    rw [if_pos ⟨h1, h2⟩]

/-- C8 witness: a timed-out download in the end-to-end scenario fails the
run with nothing written. -/
theorem download_failure_modes_witness :
    translate_pdf true scenarioNet dlTimeout = ⟨false, none, 2, true⟩ :=
  (download_failure_modes scenarioNet dlTimeout "https://cdn/x.pdf" 3 2
    (by decide) (by decide)).1 rfl

end TranslateAnyPDF
